import Mathlib

/-!
Verification development for the alicloud-httpdns-nodejs-sdk resolution
engine.  The definitions below are shallow embeddings of the TypeScript
source: `Date.now()` is passed explicitly as an integer `now` (milliseconds),
JavaScript `Map`s become association lists preserving insertion order, and
thrown exceptions become `Except` values.  Times and TTLs are `Int`.
-/

/-- Query type enum from types.ts (`QueryType`): `'4'`, `'6'`, `'4,6'`. -/
inductive QueryType where
  | IPv4
  | IPv6
  | Both
deriving DecidableEq, Repr

/-- Resolve result record from types.ts (`ResolveResult`), current
generation with independent IPv4/IPv6 TTLs and timestamps.  The type has
no `error` and no `success` field. -/
structure ResolveResult where
  domain : String
  ipv4 : List String
  ipv4Ttl : Int
  ipv4Timestamp : Int
  ipv6 : List String
  ipv6Ttl : Int
  ipv6Timestamp : Int
deriving DecidableEq, Repr

/-- `parseQueryType` from utils/helpers.ts: `undefined` maps to `Both`,
known enum values pass through. -/
def parseQueryType (queryType : Option QueryType) : QueryType :=
  queryType.getD QueryType.Both

/-- Character class `[a-zA-Z0-9]` used by the domain regex in
`isValidDomain` (utils/helpers.ts). -/
def isAlnumChar (c : Char) : Bool :=
  ('a' ≤ c && c ≤ 'z') || ('A' ≤ c && c ≤ 'Z') || ('0' ≤ c && c ≤ '9')

/-- Character class `[a-zA-Z0-9-]` of the domain regex. -/
def isLabelChar (c : Char) : Bool :=
  isAlnumChar c || c = '-'

/-- Splits a character list at `'.'` separators, mirroring how the anchored
regex `label(\.label)*` decomposes a domain into labels. -/
def splitOnDot : List Char → List (List Char)
  | [] => [[]]
  | c :: t =>
    let r := splitOnDot t
    if c = '.' then [] :: r
    else
      match r with
      | [] => [[c]]
      | h :: t' => (c :: h) :: t'

/-- One label of the regex:
`[a-zA-Z0-9]([a-zA-Z0-9-]{0,61}[a-zA-Z0-9])?` — a single alphanumeric
character, or 2..63 characters whose first and last are alphanumeric and
whose interior is alphanumeric-or-hyphen. -/
def isValidLabel : List Char → Bool
  | [] => false
  | [c] => isAlnumChar c
  | c :: rest =>
    isAlnumChar c &&
      (match rest.getLast? with
       | some d => isAlnumChar d
       | none => false) &&
      rest.dropLast.all isLabelChar &&
      decide (rest.dropLast.length ≤ 61)

/-- `isValidDomain` from utils/helpers.ts: falsy input is rejected, then the
anchored label regex must match and the length must be at most 253. -/
def isValidDomain (s : String) : Bool :=
  let cs := s.data
  if cs.isEmpty then false
  else decide (cs.length ≤ 253) && (splitOnDot cs).all isValidLabel

/-- Model of a JavaScript error value as observed by the network layer:
`message`, optional `code` (transport error code), optional
`response.status` (HTTP status), and — when the value is an
`HTTPDNSError` — its `operation` tag and `domain`. `hdnsOp = none` means
the value is not an `HTTPDNSError`. -/
structure JSError where
  message : String
  code : Option String := none
  status : Option Nat := none
  hdnsOp : Option String := none
  hdnsDomain : String := ""
deriving DecidableEq, Repr

/-- Substring occurrence test (JavaScript `String.prototype.includes`). -/
def hasSub (p : List Char) : List Char → Bool
  | [] => p.isEmpty
  | c :: t => p.isPrefixOf (c :: t) || hasSub p t

/-- `String.includes` on strings. -/
def strIncludes (s pat : String) : Bool :=
  hasSub pat.data s.data

/-- The `httpdns {operation} {domain}: {message}` format of the
`HTTPDNSError` constructor in errors.ts. -/
def hdnsMessage (op domain origMessage : String) : String :=
  let om := if origMessage = "" then "unknown error" else origMessage
  "httpdns " ++ op ++ " " ++ domain ++ ": " ++ om

/-- `createNetworkError` from errors.ts: classifies the original error as
`TIMEOUT_ERROR` when its message contains `timeout`/`ETIMEDOUT` or its code
is `ECONNABORTED`, else `NETWORK_ERROR`. -/
def createNetworkError (domain : String) (orig : JSError) : JSError :=
  let isTimeout :=
    strIncludes orig.message "timeout" || strIncludes orig.message "ETIMEDOUT" ||
      orig.code = some "ECONNABORTED"
  let op := if isTimeout then "TIMEOUT_ERROR" else "NETWORK_ERROR"
  { message := hdnsMessage op domain orig.message
    hdnsOp := some op
    hdnsDomain := domain }

/-- `createAuthFailedError` from errors.ts. -/
def createAuthFailedError (domain : String) : JSError :=
  { message := hdnsMessage "AUTH_ERROR" domain "Authentication failed"
    hdnsOp := some "AUTH_ERROR"
    hdnsDomain := domain }

/-- `createParseError` from errors.ts. -/
def createParseError (domain : String) (orig : JSError) : JSError :=
  { message := hdnsMessage "PARSE_ERROR" domain orig.message
    hdnsOp := some "PARSE_ERROR"
    hdnsDomain := domain }

/-- Cache entry from cache.ts (`CacheEntry`): a `ResolveResult` plus derived
absolute expiry instants `now + ttl * 1000` computed at construction time. -/
structure CacheEntry where
  domain : String
  ipv4 : List String
  ipv4Ttl : Int
  ipv4ExpireTime : Int
  ipv4Timestamp : Int
  ipv6 : List String
  ipv6Ttl : Int
  ipv6ExpireTime : Int
  ipv6Timestamp : Int
deriving DecidableEq, Repr

/-- The `CacheEntry` constructor: copies the result and derives
`ipv4ExpireTime = now + ipv4Ttl * 1000` (and likewise for IPv6), with
`now = Date.now()` at write time. -/
def CacheEntry.ofResult (now : Int) (result : ResolveResult) : CacheEntry :=
  { domain := result.domain
    ipv4 := result.ipv4
    ipv4Ttl := result.ipv4Ttl
    ipv4ExpireTime := now + result.ipv4Ttl * 1000
    ipv4Timestamp := result.ipv4Timestamp
    ipv6 := result.ipv6
    ipv6Ttl := result.ipv6Ttl
    ipv6ExpireTime := now + result.ipv6Ttl * 1000
    ipv6Timestamp := result.ipv6Timestamp }

/-- `CacheEntry.isExpired`: strict comparison `now > expireTime`; for the
`Both` selector the entry is expired as soon as either family is. -/
def CacheEntry.isExpired (e : CacheEntry) (queryType : QueryType) (now : Int) : Bool :=
  match queryType with
  | .IPv4 => now > e.ipv4ExpireTime
  | .IPv6 => now > e.ipv6ExpireTime
  | .Both => now > e.ipv4ExpireTime || now > e.ipv6ExpireTime

/-- `CacheEntry.toResolveResult`: projects the entry back to a result,
masking the family the query did not ask for. -/
def CacheEntry.toResolveResult (e : CacheEntry) (queryType : QueryType) : ResolveResult :=
  { domain := e.domain
    ipv4 := if queryType = QueryType.IPv6 then [] else e.ipv4
    ipv4Ttl := e.ipv4Ttl
    ipv4Timestamp := e.ipv4Timestamp
    ipv6 := if queryType = QueryType.IPv4 then [] else e.ipv6
    ipv6Ttl := e.ipv6Ttl
    ipv6Timestamp := e.ipv6Timestamp }

/-- `CacheEntry.update`: partial update — each family is overwritten only
when it is selected by `queryType` and the new result carries a positive TTL
for it; otherwise the stale family is retained. -/
def CacheEntry.update (e : CacheEntry) (queryType : QueryType) (result : ResolveResult)
    (now : Int) : CacheEntry :=
  let e1 :=
    if (queryType = QueryType.IPv4 || queryType = QueryType.Both) && result.ipv4Ttl > 0 then
      { e with ipv4 := result.ipv4
               ipv4Ttl := result.ipv4Ttl
               ipv4ExpireTime := now + result.ipv4Ttl * 1000
               ipv4Timestamp := result.ipv4Timestamp }
    else e
  if (queryType = QueryType.IPv6 || queryType = QueryType.Both) && result.ipv6Ttl > 0 then
    { e1 with ipv6 := result.ipv6
              ipv6Ttl := result.ipv6Ttl
              ipv6ExpireTime := now + result.ipv6Ttl * 1000
              ipv6Timestamp := result.ipv6Timestamp }
  else e1

/-- `CacheEntry.getExpiredTypes`: which families are currently past expiry
(`Both` is also returned when nothing is expired, as in the source). -/
def CacheEntry.getExpiredTypes (e : CacheEntry) (now : Int) : QueryType :=
  let v4Expired : Bool := now > e.ipv4ExpireTime
  let v6Expired : Bool := now > e.ipv6ExpireTime
  if v4Expired && v6Expired then QueryType.Both
  else if v4Expired then QueryType.IPv4
  else if v6Expired then QueryType.IPv6
  else QueryType.Both

/-- The `Map<string, CacheEntry>` of `CacheManager`, as an association list
in insertion order. -/
abbrev CacheStore := List (String × CacheEntry)

/-- `Map.get`: the entry stored under a domain, if any. -/
def CacheManager.lookup : CacheStore → String → Option CacheEntry
  | [], _ => none
  | p :: rest, domain => if p.1 = domain then some p.2 else CacheManager.lookup rest domain

/-- `Map.set`: replace in place when the key exists (JavaScript `Map`
keeps the original position), append otherwise. -/
def CacheManager.mapSet (cache : CacheStore) (domain : String) (e : CacheEntry) : CacheStore :=
  match cache with
  | [] => [(domain, e)]
  | p :: rest =>
    if p.1 = domain then (domain, e) :: rest
    else p :: CacheManager.mapSet rest domain e

/-- `Map.delete`. -/
def CacheManager.erase (cache : CacheStore) (domain : String) : CacheStore :=
  cache.filter (fun p => !(p.1 = domain))

/-- `CacheManager.get(domain, queryType, enableExpiredIP)`: returns the pair
of the value the method returns and the cache contents afterwards.  An
expired entry is deleted and `null` returned unless `enableExpiredIP`, in
which case the stale entry is returned as-is. -/
def CacheManager.get (cache : CacheStore) (now : Int) (domain : String)
    (queryType : QueryType) (enableExpiredIP : Bool) : Option CacheEntry × CacheStore :=
  match CacheManager.lookup cache domain with
  | none => (none, cache)
  | some entry =>
    if entry.isExpired queryType now then
      if !enableExpiredIP then (none, CacheManager.erase cache domain)
      else (some entry, cache)
    else (some entry, cache)

/-- `CacheManager.set(domain, queryType, result)`.  When an entry exists it
is updated in place (the mutation is visible in the map even when the
final `cache.set` guard is skipped, since the map already references the
mutated object); a fresh entry is stored only when at least one family
carries a positive TTL. -/
def CacheManager.set (cache : CacheStore) (now : Int) (domain : String)
    (queryType : QueryType) (result : ResolveResult) : CacheStore :=
  match CacheManager.lookup cache domain with
  | some entry =>
    CacheManager.mapSet cache domain (entry.update queryType result now)
  | none =>
    let entry := CacheEntry.ofResult now result
    if entry.ipv4Ttl > 0 || entry.ipv6Ttl > 0 then
      CacheManager.mapSet cache domain entry
    else cache

/-- `CacheManager.has(domain, queryType)`: returned flag and cache
afterwards; an expired entry is deleted and `false` returned. -/
def CacheManager.has (cache : CacheStore) (now : Int) (domain : String)
    (queryType : QueryType) : Bool × CacheStore :=
  match CacheManager.lookup cache domain with
  | none => (false, cache)
  | some entry =>
    if entry.isExpired queryType now then (false, CacheManager.erase cache domain)
    else (true, cache)

/-- `CacheManager.clear`. -/
def CacheManager.clearAll (_cache : CacheStore) : CacheStore := []

/-- `CacheManager.cleanupExpiredEntries`: deletes entries whose families are
both expired; returns the new cache and the cleaned count. -/
def CacheManager.cleanupExpiredEntries (cache : CacheStore) (now : Int) :
    CacheStore × Nat :=
  let keep := cache.filter
    (fun p => !(p.2.isExpired QueryType.IPv4 now && p.2.isExpired QueryType.IPv6 now))
  (keep, cache.length - keep.length)

/-- Endpoint pool state from utils/ip-pool.ts (`ServiceIPManager`):
ordered service IP list, current IP, and failure timestamps (a
`Map<string, Date>`, here milliseconds). -/
structure ServiceIPManager where
  serviceIPs : List String
  currentIP : Option String
  failedIPs : List (String × Int)
deriving DecidableEq, Repr

/-- Fresh pool (`new ServiceIPManager()`). -/
def ServiceIPManager.empty : ServiceIPManager :=
  { serviceIPs := [], currentIP := none, failedIPs := [] }

/-- `failedIPs.get(ip)`. -/
def ServiceIPManager.failLookup (st : ServiceIPManager) (ip : String) : Option Int :=
  (st.failedIPs.find? (fun p => p.1 = ip)).map (fun p => p.2)

/-- `failedIPs.set(ip, time)` (replace in place or append). -/
def ServiceIPManager.failSet (st : ServiceIPManager) (ip : String) (t : Int) :
    List (String × Int) :=
  let rec go : List (String × Int) → List (String × Int)
    | [] => [(ip, t)]
    | p :: rest => if p.1 = ip then (ip, t) :: rest else p :: go rest
  go st.failedIPs

/-- `ServiceIPManager.updateServiceIPs`: installs the new list; the current
IP is reset to the first element when it is missing from the new list or
unset, and unset when the list is empty. -/
def ServiceIPManager.updateServiceIPs (st : ServiceIPManager) (ips : List String) :
    ServiceIPManager :=
  let cur :=
    match st.currentIP with
    | some c =>
      if !ips.isEmpty && !(ips.contains c) then ips.head?
      else if ips.isEmpty then none
      else some c
    | none => if !ips.isEmpty then ips.head? else none
  { st with serviceIPs := ips, currentIP := cur }

/-- `ServiceIPManager.isIPAvailable`: healthy when there is no failure
record or the failure is older than five minutes (`now - failTime >
5 * 60 * 1000`). -/
def ServiceIPManager.isIPAvailable (st : ServiceIPManager) (now : Int) (ip : String) : Bool :=
  match st.failLookup ip with
  | none => true
  | some t => now - t > 5 * 60 * 1000

/-- The guard of the first branch of `getAvailableServiceIP`: the current IP
exists, is in the list, and is available. -/
def ServiceIPManager.currentUsable (st : ServiceIPManager) (now : Int) : Bool :=
  match st.currentIP with
  | some c => st.serviceIPs.contains c && st.isIPAvailable now c
  | none => false

/-- `ServiceIPManager.getAvailableServiceIP`: `null` on an empty pool;
otherwise the current IP when usable, else the first available IP in list
order (made current), else the first IP regardless of health (made
current). -/
def ServiceIPManager.getAvailableServiceIP (st : ServiceIPManager) (now : Int) :
    Option String × ServiceIPManager :=
  if st.serviceIPs.isEmpty then (none, st)
  else if st.currentUsable now then (st.currentIP, st)
  else
    match st.serviceIPs.find? (fun ip => st.isIPAvailable now ip) with
    | some ip => (some ip, { st with currentIP := some ip })
    | none =>
      let firstIP := st.serviceIPs.headD ""
      (some firstIP, { st with currentIP := some firstIP })

/-- `ServiceIPManager.markIPFailed`: records failure time `now`; if the IP
was current, the current pointer is unset. -/
def ServiceIPManager.markIPFailed (st : ServiceIPManager) (now : Int) (ip : String) :
    ServiceIPManager :=
  { st with failedIPs := st.failSet ip now
            currentIP := if st.currentIP = some ip then none else st.currentIP }

/-- `ServiceIPManager.markIPSuccess`: clears the failure record. -/
def ServiceIPManager.markIPSuccess (st : ServiceIPManager) (ip : String) : ServiceIPManager :=
  { st with failedIPs := st.failedIPs.filter (fun p => !(p.1 = ip)) }

/-- Outcome of one attempt of the operation passed to
`NetworkManager.executeWithRetry` (endpoint acquisition plus the HTTP
call, response-shape and response-code checks folded in). -/
inductive AttemptOutcome (T : Type) where
  | success (v : T)
  | failure (e : JSError)
deriving DecidableEq, Repr

/-- Observable behaviour of one `executeWithRetry` run: the value returned
or error thrown, how many attempts ran, and how many times the current
service IP was marked failed. -/
structure RetryTrace (T : Type) where
  result : Except JSError T
  attempts : Nat
  ipFailMarks : Nat
deriving Repr

deriving instance DecidableEq for Except

deriving instance DecidableEq for RetryTrace

/-- `NetworkManager.shouldRetry`: HTTP 401/403 and errors tagged
`CONFIG_ERROR` or `AUTH_ERROR` are never retried; everything else is. -/
def NetworkManager.shouldRetry (e : JSError) : Bool :=
  if e.status = some 401 || e.status = some 403 then false
  else if e.hdnsOp = some "CONFIG_ERROR" then false
  else if e.hdnsOp = some "AUTH_ERROR" then false
  else true

/-- `NetworkManager.isNetworkError`: transport error codes and HTTP status
codes ≥ 500 or 429 or 408 count against endpoint health. -/
def NetworkManager.isNetworkError (e : JSError) : Bool :=
  (match e.code with
   | some c =>
     ["ECONNRESET", "ECONNREFUSED", "ETIMEDOUT", "ENOTFOUND", "EAI_AGAIN",
       "ECONNABORTED"].contains c
   | none => false) ||
  (match e.status with
   | some s => s ≥ 500 || s = 429 || s = 408
   | none => false)

/-- `NetworkManager.enhanceError`: an `HTTPDNSError` passes through
unchanged; HTTP 401/403 becomes an `AUTH_ERROR`; everything else becomes a
network (or timeout) error. -/
def NetworkManager.enhanceError (e : JSError) (domain : String) : JSError :=
  if e.hdnsOp.isSome then e
  else if e.status = some 401 || e.status = some 403 then createAuthFailedError domain
  else createNetworkError domain e

/-- The retry loop of `NetworkManager.executeWithRetry`, unrolled over the
attempt outcomes.  The first argument is the current attempt's outcome;
the list holds the outcomes the remaining loop iterations would see. -/
def NetworkManager.runAttempts {T : Type} (domain : String) :
    AttemptOutcome T → List (AttemptOutcome T) → RetryTrace T
  | .success v, _ => { result := .ok v, attempts := 1, ipFailMarks := 0 }
  | .failure e, rest =>
    if !NetworkManager.shouldRetry e then
      { result := .error (NetworkManager.enhanceError e domain), attempts := 1, ipFailMarks := 0 }
    else
      let m := if NetworkManager.isNetworkError e then 1 else 0
      match rest with
      | [] =>
        { result := .error (NetworkManager.enhanceError e domain), attempts := 1, ipFailMarks := m }
      | o :: rest' =>
        let t := NetworkManager.runAttempts domain o rest'
        { result := t.result, attempts := t.attempts + 1, ipFailMarks := t.ipFailMarks + m }

/-- `NetworkManager.executeWithRetry`: runs up to `maxRetries + 1`
attempts; `outcomes i` is what attempt `i` would produce. -/
def NetworkManager.executeWithRetry {T : Type} (domain : String) (maxRetries : Nat)
    (outcomes : Nat → AttemptOutcome T) : RetryTrace T :=
  NetworkManager.runAttempts domain (outcomes 0)
    ((List.range maxRetries).map (fun i => outcomes (i + 1)))

/-- Outcome of one bootstrap `GET {url}` during service-IP discovery:
a thrown transport error, or a response whose `service_ip` field may be
missing. -/
inductive FetchOutcome where
  | failure
  | success (service_ip : Option (List String))
deriving DecidableEq, Repr

/-- `DEFAULT_BOOTSTRAP_DOMAIN` from config.ts. -/
def DEFAULT_BOOTSTRAP_DOMAIN : String := "resolvers-cn.httpdns.aliyuncs.com"

/-- The discovery URL built by `NetworkManager.fetchServiceIPs`: the
protocol is the literal `'https'` (`const protocol = 'https'` in the
source), regardless of configuration. -/
def NetworkManager.bootstrapURL (accountId addr : String) : String :=
  "https://" ++ addr ++ "/" ++ accountId ++ "/ss?region=global"

/-- Modelled from the spec: the discovery URL the specification describes,
built over the configured protocol (`enableHTTPS` selects `https`, else
`http`).  Kept separate from `NetworkManager.bootstrapURL` (translated from
the source) for comparison. -/
def specBootstrapURL (enableHTTPS : Bool) (accountId addr : String) : String :=
  (if enableHTTPS then "https" else "http") ++ "://" ++ addr ++ "/" ++ accountId ++
    "/ss?region=global"

/-- The `response.data && response.data.service_ip &&
response.data.service_ip.length > 0` guard: the installed list, when the
outcome carries a non-empty `service_ip`. -/
def FetchOutcome.usableList : FetchOutcome → Option (List String)
  | .failure => none
  | .success none => none
  | .success (some l) => if l.isEmpty then none else some l

/-- Observable behaviour of one `fetchServiceIPs` run: success or the
thrown error, the endpoint pool afterwards, and the URLs requested in
order. -/
structure FetchTrace where
  result : Except JSError Unit
  mgr : ServiceIPManager
  urls : List String
deriving DecidableEq, Repr

/-- The `for (const bootstrapIP of bootstrapIPs)` loop of
`fetchServiceIPs`: returns the first usable list, plus the URLs tried. -/
def NetworkManager.fetchFromIPs (accountId : String) (respond : String → FetchOutcome) :
    List String → Option (List String) × List String
  | [] => (none, [])
  | ip :: rest =>
    let url := NetworkManager.bootstrapURL accountId ip
    match (respond url).usableList with
    | some l => (some l, [url])
    | none =>
      let (r, us) := NetworkManager.fetchFromIPs accountId respond rest
      (r, url :: us)

/-- `NetworkManager.fetchServiceIPs`: tries every bootstrap IP in order,
then the fallback bootstrap domain; installs the first non-empty
`service_ip` list into the pool; throws
`createNetworkError('', Error('Service unavailable'))` when everything
fails. -/
def NetworkManager.fetchServiceIPs (accountId : String) (bootstrapIPs : List String)
    (mgr : ServiceIPManager) (respond : String → FetchOutcome) : FetchTrace :=
  match NetworkManager.fetchFromIPs accountId respond bootstrapIPs with
  | (some l, us) => { result := .ok (), mgr := mgr.updateServiceIPs l, urls := us }
  | (none, us) =>
    let furl := NetworkManager.bootstrapURL accountId DEFAULT_BOOTSTRAP_DOMAIN
    match (respond furl).usableList with
    | some l => { result := .ok (), mgr := mgr.updateServiceIPs l, urls := us ++ [furl] }
    | none =>
      { result := .error (createNetworkError "" { message := "Service unavailable" })
        mgr := mgr
        urls := us ++ [furl] }

/-- One family block of an answer in a successful HTTPDNS response
(`v4` / `v6` in types.ts). -/
structure AnswerBlock where
  ips : List String
  ttl : Int
  no_ip_code : Option String := none
deriving DecidableEq, Repr

/-- One answer of a resolution response (`data.answers[i]`). -/
structure DNSAnswer where
  dn : String
  v4 : Option AnswerBlock := none
  v6 : Option AnswerBlock := none
deriving DecidableEq, Repr

/-- A resolution response body (`HTTPDNSResponse`), reduced to the parts
the resolver reads. -/
structure HTTPDNSResponseM where
  answers : List DNSAnswer
deriving DecidableEq, Repr

/-- `answer.v4?.ips || []`. -/
def jsIps (b : Option AnswerBlock) : List String :=
  match b with
  | none => []
  | some v => v.ips

/-- `answer.v4?.ttl || 0` (for a present block, `ttl || 0 = ttl` since both
sides agree when `ttl` is the falsy `0`). -/
def jsTtl (b : Option AnswerBlock) : Int :=
  match b with
  | none => 0
  | some v => v.ttl

/-- `Resolver.convertToResolveResults`: throws on a response with no
answers, otherwise maps each answer to a `ResolveResult`, defaulting a
missing family to an empty list and TTL 0. -/
def Resolver.convertToResolveResults (now : Int) (response : HTTPDNSResponseM) :
    Except String (List ResolveResult) :=
  if response.answers.isEmpty then
    .error "Invalid response format: missing answers"
  else
    .ok (response.answers.map (fun a =>
      { domain := a.dn
        ipv4 := jsIps a.v4
        ipv4Ttl := jsTtl a.v4
        ipv4Timestamp := now
        ipv6 := jsIps a.v6
        ipv6Ttl := jsTtl a.v6
        ipv6Timestamp := now }))

/-- The zero-value result built in the `catch` block of
`Resolver.getHttpDnsResultForHostSync`: empty address lists, zero TTLs,
fresh timestamps — and nothing else (the caught error is only logged). -/
def Resolver.failedResolveResult (domain : String) (now : Int) : ResolveResult :=
  { domain := domain
    ipv4 := []
    ipv4Ttl := 0
    ipv4Timestamp := now
    ipv6 := []
    ipv6Ttl := 0
    ipv6Timestamp := now }

/-- Observable behaviour of one blocking resolve: the returned result, the
query type of the background `_resolveAsync` refresh scheduled on a stale
cache hit (if any), the cache contents afterwards, and how many network
attempts ran (0 on a cache hit). -/
structure SyncTrace where
  result : ResolveResult
  backgroundRefresh : Option QueryType
  cacheAfter : CacheStore
  networkAttempts : Nat
deriving DecidableEq, Repr

/-- `Resolver.getHttpDnsResultForHostSync`, the blocking resolve.
`Except.error` is a synchronous validation throw
(`validateSingleResolveParams`).  `outcomes i` is what network attempt `i`
would produce.  On a cache hit the entry is served (stale entries trigger a
background refresh scoped to `getExpiredTypes`); on a miss the retrying
network call runs, a successful first result is cached when a family has
positive TTL, and any resolution failure is converted to the zero-value
result rather than rethrown. -/
def Resolver.getHttpDnsResultForHostSync (enableCache enableExpiredIP : Bool)
    (maxRetries : Nat) (cache : CacheStore) (now : Int) (domain : String)
    (queryTypeOpt : Option QueryType) (outcomes : Nat → AttemptOutcome HTTPDNSResponseM) :
    Except String SyncTrace :=
  if domain = "" then .error "Domain must be a non-empty string"
  else if !isValidDomain domain then .error "Invalid domain format"
  else
    let queryType := parseQueryType queryTypeOpt
    let hit : Option CacheEntry × CacheStore :=
      if enableCache then CacheManager.get cache now domain queryType enableExpiredIP
      else (none, cache)
    match hit with
    | (some entry, cache') =>
      let refresh :=
        if entry.isExpired queryType now then some (entry.getExpiredTypes now) else none
      .ok { result := entry.toResolveResult queryType
            backgroundRefresh := refresh
            cacheAfter := cache'
            networkAttempts := 0 }
    | (none, cache') =>
      let tr := NetworkManager.executeWithRetry domain maxRetries outcomes
      match tr.result with
      | .ok response =>
        match Resolver.convertToResolveResults now response with
        | .ok (r :: _) =>
          let cacheAfter :=
            if enableCache && (r.ipv4Ttl > 0 || r.ipv6Ttl > 0) then
              CacheManager.set cache' now domain queryType r
            else cache'
          .ok { result := r
                backgroundRefresh := none
                cacheAfter := cacheAfter
                networkAttempts := tr.attempts }
        | .ok [] =>
          -- unreachable (convert never returns an empty list); in the
          -- source `results[0]` would be `undefined` and the member access
          -- would throw inside the try, landing in the same catch block
          .ok { result := Resolver.failedResolveResult domain now
                backgroundRefresh := none
                cacheAfter := cache'
                networkAttempts := tr.attempts }
        | .error _ =>
          .ok { result := Resolver.failedResolveResult domain now
                backgroundRefresh := none
                cacheAfter := cache'
                networkAttempts := tr.attempts }
      | .error _ =>
        .ok { result := Resolver.failedResolveResult domain now
              backgroundRefresh := none
              cacheAfter := cache'
              networkAttempts := tr.attempts }

/-- Observable behaviour of one non-blocking resolve: the value returned to
the caller (a cached result or `null`), the background refresh scheduled on
a stale hit, whether the miss path scheduled an async resolution, and the
cache afterwards. -/
structure NBTrace where
  result : Option ResolveResult
  backgroundRefresh : Option QueryType
  missAsyncScheduled : Bool
  cacheAfter : CacheStore
deriving DecidableEq, Repr

/-- `Resolver.getHttpDnsResultForHostSyncNonBlocking`: identical validation
and cache-check logic to the blocking path, but a miss returns `null`
immediately and only schedules a fire-and-forget `_resolveAsync` (whose
failure is logged, never surfaced).  `Except.error` is a synchronous
validation throw. -/
def Resolver.getHttpDnsResultForHostSyncNonBlocking (enableCache enableExpiredIP : Bool)
    (cache : CacheStore) (now : Int) (domain : String)
    (queryTypeOpt : Option QueryType) : Except String NBTrace :=
  if domain = "" then .error "Domain must be a non-empty string"
  else if !isValidDomain domain then .error "Invalid domain format"
  else
    let queryType := parseQueryType queryTypeOpt
    let hit : Option CacheEntry × CacheStore :=
      if enableCache then CacheManager.get cache now domain queryType enableExpiredIP
      else (none, cache)
    match hit with
    | (some entry, cache') =>
      let refresh :=
        if entry.isExpired queryType now then some (entry.getExpiredTypes now) else none
      .ok { result := some (entry.toResolveResult queryType)
            backgroundRefresh := refresh
            missAsyncScheduled := false
            cacheAfter := cache' }
    | (none, cache') =>
      .ok { result := none
            backgroundRefresh := none
            missAsyncScheduled := true
            cacheAfter := cache' }

/-! ## Helper lemmas on the cache embedding -/

/-- Replacing the looked-up value by itself leaves the store unchanged. -/
theorem mapSet_self {cache : CacheStore} {d : String} {e : CacheEntry}
    (h : CacheManager.lookup cache d = some e) :
    CacheManager.mapSet cache d e = cache := by
  induction cache with
  | nil => simp [CacheManager.lookup] at h
  | cons p rest ih =>
    by_cases hp : p.1 = d
    · simp only [CacheManager.lookup, hp, if_pos] at h
      have hpe : p = (d, e) := by
        cases p
        simp only [Option.some.injEq] at h
        simp_all
      simp [CacheManager.mapSet, hp, hpe]
    · simp only [CacheManager.lookup, hp, if_neg, if_false] at h
      simp [CacheManager.mapSet, hp]
      exact ih h

/-- Every element of `mapSet cache d e` is `(d, e)` or an element of
`cache`. -/
theorem mem_mapSet {cache : CacheStore} {d : String} {e : CacheEntry} {p : String × CacheEntry}
    (h : p ∈ CacheManager.mapSet cache d e) : p = (d, e) ∨ p ∈ cache := by
  induction cache with
  | nil => simpa [CacheManager.mapSet] using h
  | cons q rest ih =>
    by_cases hq : q.1 = d
    · simp only [CacheManager.mapSet, hq, if_pos, List.mem_cons] at h
      rcases h with h | h
      · exact Or.inl h
      · exact Or.inr (List.mem_cons_of_mem _ h)
    · simp only [CacheManager.mapSet, hq, if_neg, if_false, List.mem_cons] at h
      rcases h with h | h
      · exact Or.inr (by simp [h])
      · rcases ih h with h' | h'
        · exact Or.inl h'
        · exact Or.inr (List.mem_cons_of_mem _ h')

/-- A no-op partial update (no family of the new result has a positive
TTL) leaves the entry unchanged. -/
theorem update_noop {e : CacheEntry} {qt : QueryType} {r : ResolveResult} {now : Int}
    (h4 : r.ipv4Ttl ≤ 0) (h6 : r.ipv6Ttl ≤ 0) :
    e.update qt r now = e := by
  unfold CacheEntry.update
  have d4 : decide (r.ipv4Ttl > 0) = false := by simpa using not_lt.mpr h4
  have d6 : decide (r.ipv6Ttl > 0) = false := by simpa using not_lt.mpr h6
  simp [d4, d6]

/-- `update` keeps each family's positive-TTL disjunction: an entry with a
positive TTL in some family still has one after any partial update. -/
theorem update_ttl_pos {e : CacheEntry} {qt : QueryType} {r : ResolveResult} {now : Int}
    (h : e.ipv4Ttl > 0 ∨ e.ipv6Ttl > 0) :
    (e.update qt r now).ipv4Ttl > 0 ∨ (e.update qt r now).ipv6Ttl > 0 := by
  unfold CacheEntry.update
  by_cases c4 : (qt = QueryType.IPv4 || qt = QueryType.Both) && decide (r.ipv4Ttl > 0)
  · by_cases c6 : (qt = QueryType.IPv6 || qt = QueryType.Both) && decide (r.ipv6Ttl > 0)
    · simp only [c4, c6, if_true]
      simp only [Bool.and_eq_true, decide_eq_true_eq] at c6
      exact Or.inr c6.2
    · simp only [c4, c6, if_true, if_false]
      simp only [Bool.and_eq_true, decide_eq_true_eq] at c4
      exact Or.inl c4.2
  · by_cases c6 : (qt = QueryType.IPv6 || qt = QueryType.Both) && decide (r.ipv6Ttl > 0)
    · simp only [c4, c6, if_true, if_false]
      simp only [Bool.and_eq_true, decide_eq_true_eq] at c6
      exact Or.inr c6.2
    · simp only [c4, c6, if_false]
      exact h

/-- The IPv4 family of an entry is untouched by an update that does not
select it or whose new IPv4 TTL is not positive. -/
theorem update_keeps_v4 {e : CacheEntry} {qt : QueryType} {r : ResolveResult} {now : Int}
    (h : qt = QueryType.IPv6 ∨ r.ipv4Ttl ≤ 0) :
    (e.update qt r now).ipv4 = e.ipv4 ∧ (e.update qt r now).ipv4Ttl = e.ipv4Ttl ∧
      (e.update qt r now).ipv4ExpireTime = e.ipv4ExpireTime ∧
      (e.update qt r now).ipv4Timestamp = e.ipv4Timestamp := by
  unfold CacheEntry.update
  have c4 : ((qt = QueryType.IPv4 || qt = QueryType.Both) && decide (r.ipv4Ttl > 0)) = false := by
    rcases h with h | h
    · subst h; simp
    · have : decide (r.ipv4Ttl > 0) = false := by simpa using not_lt.mpr h
      simp [this]
  by_cases c6 : (qt = QueryType.IPv6 || qt = QueryType.Both) && decide (r.ipv6Ttl > 0)
  · simp [c4, c6]
  · simp [c4, c6]

/-- The IPv6 family of an entry is untouched by an update that does not
select it or whose new IPv6 TTL is not positive. -/
theorem update_keeps_v6 {e : CacheEntry} {qt : QueryType} {r : ResolveResult} {now : Int}
    (h : qt = QueryType.IPv4 ∨ r.ipv6Ttl ≤ 0) :
    (e.update qt r now).ipv6 = e.ipv6 ∧ (e.update qt r now).ipv6Ttl = e.ipv6Ttl ∧
      (e.update qt r now).ipv6ExpireTime = e.ipv6ExpireTime ∧
      (e.update qt r now).ipv6Timestamp = e.ipv6Timestamp := by
  unfold CacheEntry.update
  have c6 : ((qt = QueryType.IPv6 || qt = QueryType.Both) && decide (r.ipv6Ttl > 0)) = false := by
    rcases h with h | h
    · subst h; simp
    · have : decide (r.ipv6Ttl > 0) = false := by simpa using not_lt.mpr h
      simp [this]
  by_cases c4 : (qt = QueryType.IPv4 || qt = QueryType.Both) && decide (r.ipv4Ttl > 0)
  · simp [c4, c6]
  · simp [c4, c6]

/-- A selected IPv4 family with positive new TTL is overwritten with the
new result's data and a fresh expiry deadline. -/
theorem update_writes_v4 {e : CacheEntry} {qt : QueryType} {r : ResolveResult} {now : Int}
    (hqt : qt ≠ QueryType.IPv6) (ht : r.ipv4Ttl > 0) :
    (e.update qt r now).ipv4 = r.ipv4 ∧ (e.update qt r now).ipv4Ttl = r.ipv4Ttl ∧
      (e.update qt r now).ipv4ExpireTime = now + r.ipv4Ttl * 1000 ∧
      (e.update qt r now).ipv4Timestamp = r.ipv4Timestamp := by
  unfold CacheEntry.update
  have c4 : ((qt = QueryType.IPv4 || qt = QueryType.Both) && decide (r.ipv4Ttl > 0)) = true := by
    cases qt <;> simp_all
  by_cases c6 : (qt = QueryType.IPv6 || qt = QueryType.Both) && decide (r.ipv6Ttl > 0)
  · simp [c4, c6]
  · simp [c4, c6]

/-- A selected IPv6 family with positive new TTL is overwritten with the
new result's data and a fresh expiry deadline. -/
theorem update_writes_v6 {e : CacheEntry} {qt : QueryType} {r : ResolveResult} {now : Int}
    (hqt : qt ≠ QueryType.IPv4) (ht : r.ipv6Ttl > 0) :
    (e.update qt r now).ipv6 = r.ipv6 ∧ (e.update qt r now).ipv6Ttl = r.ipv6Ttl ∧
      (e.update qt r now).ipv6ExpireTime = now + r.ipv6Ttl * 1000 ∧
      (e.update qt r now).ipv6Timestamp = r.ipv6Timestamp := by
  unfold CacheEntry.update
  have c6 : ((qt = QueryType.IPv6 || qt = QueryType.Both) && decide (r.ipv6Ttl > 0)) = true := by
    cases qt <;> simp_all
  by_cases c4 : (qt = QueryType.IPv4 || qt = QueryType.Both) && decide (r.ipv4Ttl > 0)
  · simp [c4, c6]
  · simp [c4, c6]

/-- Sample cache entry used to instantiate the cache-read claims: captured
at time 0 with both TTLs 300 s, so both deadlines are 300000 ms. -/
def sampleEntryC3 : CacheEntry :=
  { domain := "example.com"
    ipv4 := ["1.2.3.4"]
    ipv4Ttl := 300
    ipv4ExpireTime := 300000
    ipv4Timestamp := 0
    ipv6 := ["2001:db8::1"]
    ipv6Ttl := 300
    ipv6ExpireTime := 300000
    ipv6Timestamp := 0 }

/-- Claim C3: for every domain and family selector, `CacheManager.get`
returns the stored entry when it is unexpired for the selector; an expired
entry is deleted and `null` returned when `enableExpiredIP` is false, and
returned as-is when it is true; the write-time deadline is
`captureTime + TTL * 1000` and expiry is the strict comparison
`now > deadline` (an entry is still fresh at exactly its deadline). -/
theorem claim_C3_thm (cache : CacheStore) (now : Int) (domain : String)
    (qt : QueryType) (allowStale : Bool) (e : CacheEntry) (r : ResolveResult) (t : Int) :
    (CacheManager.lookup cache domain = none →
       CacheManager.get cache now domain qt allowStale = (none, cache))
    ∧ (CacheManager.lookup cache domain = some e → e.isExpired qt now = false →
       CacheManager.get cache now domain qt allowStale = (some e, cache))
    ∧ (CacheManager.lookup cache domain = some e → e.isExpired qt now = true →
       allowStale = false →
       CacheManager.get cache now domain qt allowStale = (none, CacheManager.erase cache domain))
    ∧ (CacheManager.lookup cache domain = some e → e.isExpired qt now = true →
       allowStale = true →
       CacheManager.get cache now domain qt allowStale = (some e, cache))
    ∧ ((CacheEntry.ofResult t r).ipv4ExpireTime = t + r.ipv4Ttl * 1000
       ∧ (CacheEntry.ofResult t r).ipv6ExpireTime = t + r.ipv6Ttl * 1000)
    ∧ (e.isExpired QueryType.IPv4 now = decide (now > e.ipv4ExpireTime)
       ∧ e.isExpired QueryType.IPv6 now = decide (now > e.ipv6ExpireTime)
       ∧ e.isExpired QueryType.IPv4 e.ipv4ExpireTime = false
       ∧ e.isExpired QueryType.IPv6 e.ipv6ExpireTime = false) := by
  refine ⟨?_, ?_, ?_, ?_, ⟨rfl, rfl⟩, ?_, ?_, ?_, ?_⟩
  · intro h; simp [CacheManager.get, h]
  · intro h hexp; simp [CacheManager.get, h, hexp]
  · intro h hexp hstale; subst hstale; simp [CacheManager.get, h, hexp]
  · intro h hexp hstale; subst hstale; simp [CacheManager.get, h, hexp]
  · simp [CacheEntry.isExpired]
  · simp [CacheEntry.isExpired]
  · simp [CacheEntry.isExpired]
  · simp [CacheEntry.isExpired]

/-- Witness for C3: the fresh-hit, expired-delete and expired-stale-serve
branches at a concrete store; at 100 ms the entry is fresh, at 300001 ms it
is one past its deadline. -/
theorem claim_C3_witness :
    CacheManager.get [("example.com", sampleEntryC3)] 100 "example.com" QueryType.IPv4 false
      = (some sampleEntryC3, [("example.com", sampleEntryC3)])
    ∧ CacheManager.get [("example.com", sampleEntryC3)] 300001 "example.com" QueryType.IPv4 false
      = (none, CacheManager.erase [("example.com", sampleEntryC3)] "example.com")
    ∧ CacheManager.get [("example.com", sampleEntryC3)] 300001 "example.com" QueryType.IPv4 true
      = (some sampleEntryC3, [("example.com", sampleEntryC3)])
    ∧ sampleEntryC3.isExpired QueryType.IPv4 300000 = false :=
  ⟨(claim_C3_thm [("example.com", sampleEntryC3)] 100 "example.com" QueryType.IPv4 false
      sampleEntryC3 (Resolver.failedResolveResult "" 0) 0).2.1 (by decide) (by decide),
   (claim_C3_thm [("example.com", sampleEntryC3)] 300001 "example.com" QueryType.IPv4 false
      sampleEntryC3 (Resolver.failedResolveResult "" 0) 0).2.2.1 (by decide) (by decide) rfl,
   (claim_C3_thm [("example.com", sampleEntryC3)] 300001 "example.com" QueryType.IPv4 true
      sampleEntryC3 (Resolver.failedResolveResult "" 0) 0).2.2.2.1 (by decide) (by decide) rfl,
   by decide⟩

/-- Claim C10: under the `Both` selector an entry counts as expired as soon
as either family is expired (disjunction, not conjunction), so with stale
serving disabled the expiry of one family makes `get` and `has` delete the
whole entry — the still-fresh family's data included — and report a miss. -/
theorem claim_C10_thm (cache : CacheStore) (now : Int) (domain : String) (e : CacheEntry) :
    (e.isExpired QueryType.Both now
      = (e.isExpired QueryType.IPv4 now || e.isExpired QueryType.IPv6 now))
    ∧ (CacheManager.lookup cache domain = some e →
       e.isExpired QueryType.IPv4 now = true ∨ e.isExpired QueryType.IPv6 now = true →
       CacheManager.get cache now domain QueryType.Both false
           = (none, CacheManager.erase cache domain)
         ∧ CacheManager.has cache now domain QueryType.Both
           = (false, CacheManager.erase cache domain)) := by
  constructor
  · simp [CacheEntry.isExpired]
  · intro h hexp
    have hboth : e.isExpired QueryType.Both now = true := by
      simp only [CacheEntry.isExpired] at hexp ⊢
      rcases hexp with h' | h' <;> simp [h']
    exact ⟨by simp [CacheManager.get, h, hboth], by simp [CacheManager.has, h, hboth]⟩

/-- Witness for C10: at 400000 ms only the IPv6 family of the sample entry
(IPv4 deadline 500000, IPv6 deadline 300000) is expired, yet the `Both`
read deletes the entry and misses. -/
theorem claim_C10_witness :
    CacheManager.get
        [("example.com",
          { sampleEntryC3 with ipv4ExpireTime := 500000 })] 400000 "example.com"
        QueryType.Both false
      = (none,
         CacheManager.erase
           [("example.com", { sampleEntryC3 with ipv4ExpireTime := 500000 })] "example.com")
    ∧ CacheManager.has
        [("example.com", { sampleEntryC3 with ipv4ExpireTime := 500000 })] 400000 "example.com"
        QueryType.Both
      = (false,
         CacheManager.erase
           [("example.com", { sampleEntryC3 with ipv4ExpireTime := 500000 })] "example.com") :=
  (claim_C10_thm [("example.com", { sampleEntryC3 with ipv4ExpireTime := 500000 })] 400000
      "example.com" { sampleEntryC3 with ipv4ExpireTime := 500000 }).2
    (by decide) (Or.inr (by decide))

/-- A successful lookup exhibits a stored pair. -/
theorem lookup_mem {cache : CacheStore} {d : String} {e : CacheEntry}
    (h : CacheManager.lookup cache d = some e) : (d, e) ∈ cache := by
  induction cache with
  | nil => simp [CacheManager.lookup] at h
  | cons p rest ih =>
    by_cases hp : p.1 = d
    · simp only [CacheManager.lookup, hp, if_pos] at h
      have : p = (d, e) := by
        cases p
        simp only [Option.some.injEq] at h
        simp_all
      simp [← this]
    · simp only [CacheManager.lookup, hp, if_neg, if_false] at h
      exact List.mem_cons_of_mem _ (ih h)

/-- `erase` only removes pairs. -/
theorem mem_erase {cache : CacheStore} {d : String} {p : String × CacheEntry}
    (h : p ∈ CacheManager.erase cache d) : p ∈ cache :=
  (List.mem_filter.mp h).1

/-- The cache left behind by a `get` holds only pairs that were already
stored. -/
theorem mem_get_snd {cache : CacheStore} {now : Int} {d : String} {qt : QueryType}
    {stale : Bool} {p : String × CacheEntry}
    (h : p ∈ (CacheManager.get cache now d qt stale).2) : p ∈ cache := by
  unfold CacheManager.get at h
  rcases hl : CacheManager.lookup cache d with _ | e <;> rw [hl] at h
  · exact h
  · by_cases hexp : e.isExpired qt now
    · by_cases hs : stale
      · simpa [hexp, hs] using h
      · simp only [hexp, hs, if_true, Bool.not_false, if_pos] at h
        exact mem_erase h
    · simpa [hexp] using h

/-- The cache left behind by a `has` holds only pairs that were already
stored. -/
theorem mem_has_snd {cache : CacheStore} {now : Int} {d : String} {qt : QueryType}
    {p : String × CacheEntry}
    (h : p ∈ (CacheManager.has cache now d qt).2) : p ∈ cache := by
  unfold CacheManager.has at h
  rcases hl : CacheManager.lookup cache d with _ | e <;> rw [hl] at h
  · exact h
  · by_cases hexp : e.isExpired qt now
    · simp only [hexp, if_true] at h
      exact mem_erase h
    · simpa [hexp] using h

/-- The cache left behind by `cleanupExpiredEntries` holds only pairs that
were already stored. -/
theorem mem_cleanup_fst {cache : CacheStore} {now : Int} {p : String × CacheEntry}
    (h : p ∈ (CacheManager.cleanupExpiredEntries cache now).1) : p ∈ cache :=
  (List.mem_filter.mp h).1

/-- The TTL-positivity invariant of the cited spec sentence: every stored
entry has a positive TTL in at least one family. -/
def CacheTtlInv (cache : CacheStore) : Prop :=
  ∀ p ∈ cache, p.2.ipv4Ttl > 0 ∨ p.2.ipv6Ttl > 0

/-- Claim C8: `CacheManager.set` merges into an existing entry, updating
only the selected families whose new TTL is positive; a put whose record
has no positive-TTL family stores nothing when the domain is absent and
leaves a pre-existing entry untouched; consequently every stored entry has
`ipv4Ttl > 0` or `ipv6Ttl > 0`, and every cache operation preserves that
invariant. -/
theorem claim_C8_thm (cache : CacheStore) (now : Int) (domain : String)
    (qt : QueryType) (r : ResolveResult) (e : CacheEntry) (stale : Bool) :
    (CacheManager.lookup cache domain = none → r.ipv4Ttl ≤ 0 → r.ipv6Ttl ≤ 0 →
       CacheManager.set cache now domain qt r = cache)
    ∧ (CacheManager.lookup cache domain = some e → r.ipv4Ttl ≤ 0 → r.ipv6Ttl ≤ 0 →
       CacheManager.set cache now domain qt r = cache)
    ∧ (CacheManager.lookup cache domain = some e →
       CacheManager.set cache now domain qt r
         = CacheManager.mapSet cache domain (e.update qt r now))
    ∧ (CacheTtlInv cache →
       CacheTtlInv (CacheManager.set cache now domain qt r)
       ∧ CacheTtlInv (CacheManager.get cache now domain qt stale).2
       ∧ CacheTtlInv (CacheManager.has cache now domain qt).2
       ∧ CacheTtlInv (CacheManager.erase cache domain)
       ∧ CacheTtlInv (CacheManager.clearAll cache)
       ∧ CacheTtlInv (CacheManager.cleanupExpiredEntries cache now).1) := by
  refine ⟨?_, ?_, ?_, ?_⟩
  · intro h h4 h6
    have d4 : decide (r.ipv4Ttl > 0) = false := by simpa using not_lt.mpr h4
    have d6 : decide (r.ipv6Ttl > 0) = false := by simpa using not_lt.mpr h6
    simp [CacheManager.set, h, CacheEntry.ofResult, d4, d6]
  · intro h h4 h6
    simp only [CacheManager.set, h]
    rw [update_noop h4 h6]
    exact mapSet_self h
  · intro h
    simp [CacheManager.set, h]
  · intro hinv
    refine ⟨?_, ?_, ?_, ?_, ?_, ?_⟩
    · intro p hp
      unfold CacheManager.set at hp
      rcases hl : CacheManager.lookup cache domain with _ | entry <;> rw [hl] at hp
      · by_cases hg : (CacheEntry.ofResult now r).ipv4Ttl > 0 ∨ (CacheEntry.ofResult now r).ipv6Ttl > 0
        · have hg' : ((CacheEntry.ofResult now r).ipv4Ttl > 0 ||
              (CacheEntry.ofResult now r).ipv6Ttl > 0) = true := by
            rcases hg with hg | hg <;> simp [hg]
          rw [if_pos hg'] at hp
          rcases mem_mapSet hp with hp' | hp'
          · subst hp'; exact hg
          · exact hinv _ hp'
        · have hg' : ((CacheEntry.ofResult now r).ipv4Ttl > 0 ||
              (CacheEntry.ofResult now r).ipv6Ttl > 0) = false := by
            push_neg at hg
            simp [not_lt.mpr hg.1, not_lt.mpr hg.2]
          rw [if_neg (by simp [hg'])] at hp
          exact hinv _ hp
      · rcases mem_mapSet hp with hp' | hp'
        · subst hp'
          exact update_ttl_pos (hinv _ (lookup_mem hl))
        · exact hinv _ hp'
    · exact fun p hp => hinv _ (mem_get_snd hp)
    · exact fun p hp => hinv _ (mem_has_snd hp)
    · exact fun p hp => hinv _ (mem_erase hp)
    · intro p hp; simp [CacheManager.clearAll] at hp
    · exact fun p hp => hinv _ (mem_cleanup_fst hp)

/-- Witness for C8: a put of an all-zero-TTL record on an empty cache
stores nothing; the same put on a store holding the sample entry leaves it
untouched; and the invariant holds after a genuine merge. -/
theorem claim_C8_witness :
    CacheManager.set [] 0 "example.com" QueryType.Both
        (Resolver.failedResolveResult "example.com" 0) = []
    ∧ CacheManager.set [("example.com", sampleEntryC3)] 0 "example.com" QueryType.Both
        (Resolver.failedResolveResult "example.com" 0) = [("example.com", sampleEntryC3)]
    ∧ CacheTtlInv
        (CacheManager.set [("example.com", sampleEntryC3)] 0 "example.com" QueryType.Both
          (Resolver.failedResolveResult "example.com" 0)) :=
  ⟨(claim_C8_thm [] 0 "example.com" QueryType.Both
      (Resolver.failedResolveResult "example.com" 0) sampleEntryC3 false).1
      rfl (by decide) (by decide),
   (claim_C8_thm [("example.com", sampleEntryC3)] 0 "example.com" QueryType.Both
      (Resolver.failedResolveResult "example.com" 0) sampleEntryC3 false).2.1
      (by decide) (by decide) (by decide),
   ((claim_C8_thm [("example.com", sampleEntryC3)] 0 "example.com" QueryType.Both
      (Resolver.failedResolveResult "example.com" 0) sampleEntryC3 false).2.2.2
      (by
        intro p hp
        simp only [List.mem_singleton] at hp
        subst hp
        simp [sampleEntryC3])).1⟩

/-- The per-family invariant of the spec data model on a result: a family
with non-positive TTL has an empty address list. -/
def RecordTtlShape (r : ResolveResult) : Prop :=
  (r.ipv4Ttl ≤ 0 → r.ipv4 = []) ∧ (r.ipv6Ttl ≤ 0 → r.ipv6 = [])

/-- The same per-family invariant on a cache entry. -/
def EntryTtlShape (e : CacheEntry) : Prop :=
  (e.ipv4Ttl ≤ 0 → e.ipv4 = []) ∧ (e.ipv6Ttl ≤ 0 → e.ipv6 = [])

/-- The invariant over a whole cache. -/
def CacheTtlShape (cache : CacheStore) : Prop :=
  ∀ p ∈ cache, EntryTtlShape p.2

instance (r : ResolveResult) : Decidable (RecordTtlShape r) := by
  unfold RecordTtlShape; infer_instance

instance (e : CacheEntry) : Decidable (EntryTtlShape e) := by
  unfold EntryTtlShape; infer_instance

/-- The entry constructor copies the result's families, so it preserves the
per-family invariant. -/
theorem shape_ofResult {now : Int} {r : ResolveResult} (h : RecordTtlShape r) :
    EntryTtlShape (CacheEntry.ofResult now r) := h

/-- A partial update from an invariant-satisfying result preserves the
per-family invariant of the entry. -/
theorem shape_update {e : CacheEntry} {qt : QueryType} {r : ResolveResult} {now : Int}
    (he : EntryTtlShape e) (_hr : RecordTtlShape r) :
    EntryTtlShape (e.update qt r now) := by
  unfold CacheEntry.update
  by_cases c4 : (qt = QueryType.IPv4 || qt = QueryType.Both) && decide (r.ipv4Ttl > 0) <;>
    by_cases c6 : (qt = QueryType.IPv6 || qt = QueryType.Both) && decide (r.ipv6Ttl > 0) <;>
      simp only [c4, c6, if_true, if_false] <;>
        simp only [Bool.and_eq_true, decide_eq_true_eq] at c4 c6
  · exact ⟨fun h => absurd h (not_le.mpr c4.2), fun h => absurd h (not_le.mpr c6.2)⟩
  · exact ⟨fun h => absurd h (not_le.mpr c4.2), he.2⟩
  · exact ⟨he.1, fun h => absurd h (not_le.mpr c6.2)⟩
  · exact he

/-- Amended claim C7: a record parsed from a response in which every
family block carrying a non-empty address list also carries a positive TTL
satisfies the invariant "TTL ≤ 0 implies an empty list for that family"
(in particular a family absent from the answer gets TTL 0 and an empty
list), and `CacheManager.set` preserves the invariant over the stored
entries.  The parser itself does not enforce the invariant for a family
block with non-positive TTL and addresses (see the counterexample). -/
theorem claim_C7_thm (now nowW : Int) (response : HTTPDNSResponseM) (cache : CacheStore)
    (domain : String) (qt : QueryType) (r : ResolveResult)
    (hresp : ∀ a ∈ response.answers,
      (∀ v, a.v4 = some v → v.ips ≠ [] → v.ttl > 0)
      ∧ (∀ v, a.v6 = some v → v.ips ≠ [] → v.ttl > 0)) :
    (∀ rs, Resolver.convertToResolveResults now response = .ok rs →
       ∀ x ∈ rs, RecordTtlShape x)
    ∧ (RecordTtlShape r → CacheTtlShape cache →
       CacheTtlShape (CacheManager.set cache nowW domain qt r)) := by
  constructor
  · intro rs hok x hx
    unfold Resolver.convertToResolveResults at hok
    by_cases hne : response.answers.isEmpty = true
    · rw [if_pos hne] at hok
      exact absurd hok (by simp)
    · rw [if_neg hne] at hok
      have hrs : _ = rs := Except.ok.inj hok
      subst hrs
      rcases List.mem_map.mp hx with ⟨a, ha, rfl⟩
      rcases hresp a ha with ⟨h4, h6⟩
      constructor
      · intro ht
        rcases hv : a.v4 with _ | v
        · simp [jsIps, hv]
        · simp only [jsIps, jsTtl, hv] at ht ⊢
          by_contra hne'
          exact absurd ht (not_le.mpr (h4 v hv hne'))
      · intro ht
        rcases hv : a.v6 with _ | v
        · simp [jsIps, hv]
        · simp only [jsIps, jsTtl, hv] at ht ⊢
          by_contra hne'
          exact absurd ht (not_le.mpr (h6 v hv hne'))
  · intro hr hcache p hp
    unfold CacheManager.set at hp
    rcases hl : CacheManager.lookup cache domain with _ | entry <;> rw [hl] at hp
    · by_cases hg : ((CacheEntry.ofResult nowW r).ipv4Ttl > 0 ||
          (CacheEntry.ofResult nowW r).ipv6Ttl > 0) = true
      · rw [if_pos hg] at hp
        rcases mem_mapSet hp with hp' | hp'
        · subst hp'; exact shape_ofResult hr
        · exact hcache _ hp'
      · rw [if_neg (by simpa using hg)] at hp
        exact hcache _ hp
    · rcases mem_mapSet hp with hp' | hp'
      · subst hp'
        exact shape_update (hcache _ (lookup_mem hl)) hr
      · exact hcache _ hp'

/-- A response whose IPv4 block carries addresses with TTL 0, as a server
could return it. -/
def badTtlResponse : HTTPDNSResponseM :=
  { answers := [{ dn := "example.com"
                  v4 := some { ips := ["1.2.3.4"], ttl := 0 }
                  v6 := some { ips := ["2001:db8::1"], ttl := 300 } }] }

/-- The record `convertToResolveResults` produces for `badTtlResponse`. -/
def badTtlRecord : ResolveResult :=
  { domain := "example.com"
    ipv4 := ["1.2.3.4"]
    ipv4Ttl := 0
    ipv4Timestamp := 0
    ipv6 := ["2001:db8::1"]
    ipv6Ttl := 300
    ipv6Timestamp := 0 }

/-- Counterexample to claim C7 as stated: a successful response whose IPv4
block has TTL 0 but a non-empty address list parses to a record violating
the invariant, and that record is stored in the cache (its IPv6 TTL is
positive) still violating the invariant. -/
theorem claim_C7_cex :
    Resolver.convertToResolveResults 0 badTtlResponse = .ok [badTtlRecord]
    ∧ ¬ RecordTtlShape badTtlRecord
    ∧ CacheManager.lookup (CacheManager.set [] 0 "example.com" QueryType.Both badTtlRecord)
        "example.com" = some (CacheEntry.ofResult 0 badTtlRecord)
    ∧ ¬ EntryTtlShape (CacheEntry.ofResult 0 badTtlRecord) := by
  refine ⟨by decide, by decide, by decide, by decide⟩

/-- A well-formed response: the IPv4 block carries addresses with a
positive TTL, the IPv6 family is absent. -/
def goodResponse : HTTPDNSResponseM :=
  { answers := [{ dn := "example.com"
                  v4 := some { ips := ["1.2.3.4"], ttl := 300 }
                  v6 := none }] }

/-- The record parsed from `goodResponse` at time 0. -/
def goodRecord : ResolveResult :=
  { domain := "example.com"
    ipv4 := ["1.2.3.4"]
    ipv4Ttl := 300
    ipv4Timestamp := 0
    ipv6 := []
    ipv6Ttl := 0
    ipv6Timestamp := 0 }

/-- Witness for C7 (amended): the record parsed from a well-formed response
satisfies the invariant, and storing it keeps the cache invariant. -/
theorem claim_C7_witness :
    RecordTtlShape goodRecord
    ∧ CacheTtlShape (CacheManager.set [] 0 "example.com" QueryType.Both goodRecord) := by
  have h := claim_C7_thm 0 0 goodResponse [] "example.com" QueryType.Both goodRecord
    (by
      intro a ha
      simp only [goodResponse, List.mem_singleton] at ha
      subst ha
      constructor
      · intro v hv _
        cases Option.some.inj hv
        decide
      · intro v hv
        exact absurd hv (by simp))
  exact ⟨h.1 [goodRecord] rfl goodRecord (List.mem_singleton.mpr rfl),
         h.2 (by decide) (by intro p hp; simp at hp)⟩

/-- Claim C4: endpoint rotation.  With pool `[A, B, C]`, no failure records
and `A` current, marking `A` failed then acquiring yields `B`; marking `B`
failed then acquiring yields `C`; marking `C` failed then acquiring falls
back to `A` (first in list order) and makes it current.  In general,
`getAvailableServiceIP` returns the current IP when it is in the list and
healthy, else the first healthy IP in list order (made current), else the
first IP regardless of health (made current); an IP is healthy iff it has
no failure record or its failure is older than five minutes. -/
theorem claim_C4_thm (st : ServiceIPManager) (now t : Int) (c ip' x : String)
    (xs : List String) :
    (let s0 : ServiceIPManager :=
       { serviceIPs := ["A", "B", "C"], currentIP := some "A", failedIPs := [] }
     let a1 := (s0.markIPFailed 0 "A").getAvailableServiceIP 0
     let a2 := (a1.2.markIPFailed 0 "B").getAvailableServiceIP 0
     let a3 := (a2.2.markIPFailed 0 "C").getAvailableServiceIP 0
     a1.1 = some "B" ∧ a2.1 = some "C" ∧ a3.1 = some "A" ∧ a3.2.currentIP = some "A")
    ∧ (st.currentIP = some c → st.serviceIPs.contains c = true →
       st.isIPAvailable now c = true → st.getAvailableServiceIP now = (some c, st))
    ∧ (st.currentUsable now = false →
       st.serviceIPs.find? (fun ip => st.isIPAvailable now ip) = some ip' →
       st.getAvailableServiceIP now = (some ip', { st with currentIP := some ip' }))
    ∧ (st.currentUsable now = false → st.serviceIPs = x :: xs →
       st.serviceIPs.find? (fun ip => st.isIPAvailable now ip) = none →
       st.getAvailableServiceIP now = (some x, { st with currentIP := some x }))
    ∧ (st.failLookup c = none → st.isIPAvailable now c = true)
    ∧ (st.failLookup c = some t →
       st.isIPAvailable now c = decide (now - t > 5 * 60 * 1000)) := by
  refine ⟨by decide, ?_, ?_, ?_, ?_, ?_⟩
  · intro hc hmem havail
    have hne : st.serviceIPs.isEmpty = false := by
      cases hs : st.serviceIPs
      · rw [hs] at hmem; simp at hmem
      · simp [hs]
    have husable : st.currentUsable now = true := by
      simp only [ServiceIPManager.currentUsable, hc]
      rw [hmem, havail]
      rfl
    simp [ServiceIPManager.getAvailableServiceIP, hne, husable, hc]
  · intro husable hfind
    have hne : st.serviceIPs.isEmpty = false := by
      cases hs : st.serviceIPs
      · rw [hs] at hfind; simp at hfind
      · simp [hs]
    simp [ServiceIPManager.getAvailableServiceIP, hne, husable, hfind]
  · intro husable hlist hfind
    have hne : st.serviceIPs.isEmpty = false := by simp [hlist]
    rw [hlist] at hfind
    simp [ServiceIPManager.getAvailableServiceIP, hne, husable, hfind, hlist]
  · intro h
    simp [ServiceIPManager.isIPAvailable, h]
  · intro h
    simp [ServiceIPManager.isIPAvailable, h]

/-- Witness for C4: a pool whose current IP `X` is healthy hands out `X`
unchanged; a pool whose only IP failed 301 seconds ago (cooldown elapsed)
treats it as healthy again. -/
theorem claim_C4_witness :
    ServiceIPManager.getAvailableServiceIP
        { serviceIPs := ["X", "Y"], currentIP := some "X", failedIPs := [] } 0
      = (some "X", { serviceIPs := ["X", "Y"], currentIP := some "X", failedIPs := [] })
    ∧ ServiceIPManager.isIPAvailable
        { serviceIPs := ["X"], currentIP := none, failedIPs := [("X", 0)] } 301000 "X" = true :=
  ⟨(claim_C4_thm { serviceIPs := ["X", "Y"], currentIP := some "X", failedIPs := [] }
      0 0 "X" "" "" []).2.1 rfl (by decide) (by decide),
   by
    rw [(claim_C4_thm { serviceIPs := ["X"], currentIP := none, failedIPs := [("X", 0)] }
      301000 0 "X" "" "" []).2.2.2.2.2 (by decide)]
    decide⟩

/-- An error tagged or mapped to a non-retryable kind makes `shouldRetry`
false. -/
theorem shouldRetry_false_of_status {e : JSError}
    (h : e.status = some 401 ∨ e.status = some 403) :
    NetworkManager.shouldRetry e = false := by
  unfold NetworkManager.shouldRetry
  rcases h with h | h <;> simp [h]

/-- Auth- and config-tagged `HTTPDNSError`s are never retried. -/
theorem shouldRetry_false_of_tag {e : JSError}
    (h : e.hdnsOp = some "AUTH_ERROR" ∨ e.hdnsOp = some "CONFIG_ERROR") :
    NetworkManager.shouldRetry e = false := by
  unfold NetworkManager.shouldRetry
  by_cases hs : (e.status = some 401 || e.status = some 403) = true
  · simp [hs]
  · rcases h with h | h <;> simp [hs, h]

/-- Claim C6: an attempt failing with HTTP 401/403, or with an error tagged
as an authentication or configuration error, stops `executeWithRetry`
after exactly one attempt for every `maxRetries`, without marking the
endpoint failed; a raw 401/403 failure surfaces as an `AUTH_ERROR`, and a
tagged error surfaces unchanged (so an auth-tagged error stays
Auth-kind). -/
theorem claim_C6_thm (domain : String) (maxRetries : Nat) (e : JSError)
    (outcomes : Nat → AttemptOutcome HTTPDNSResponseM) :
    (outcomes 0 = .failure e → e.status = some 401 ∨ e.status = some 403 →
       NetworkManager.executeWithRetry domain maxRetries outcomes
         = { result := .error (NetworkManager.enhanceError e domain)
             attempts := 1
             ipFailMarks := 0 })
    ∧ (e.hdnsOp = none → e.status = some 401 ∨ e.status = some 403 →
       NetworkManager.enhanceError e domain = createAuthFailedError domain
       ∧ (NetworkManager.enhanceError e domain).hdnsOp = some "AUTH_ERROR")
    ∧ (outcomes 0 = .failure e →
       e.hdnsOp = some "AUTH_ERROR" ∨ e.hdnsOp = some "CONFIG_ERROR" →
       NetworkManager.executeWithRetry domain maxRetries outcomes
         = { result := .error e, attempts := 1, ipFailMarks := 0 }) := by
  refine ⟨?_, ?_, ?_⟩
  · intro h0 hst
    have hsr := shouldRetry_false_of_status hst
    unfold NetworkManager.executeWithRetry
    rw [h0]
    simp [NetworkManager.runAttempts, hsr]
  · intro hop hst
    have henh : NetworkManager.enhanceError e domain = createAuthFailedError domain := by
      unfold NetworkManager.enhanceError
      have : e.hdnsOp.isSome = false := by simp [hop]
      rcases hst with h | h <;> simp [this, h]
    exact ⟨henh, by rw [henh]; rfl⟩
  · intro h0 htag
    have hsr := shouldRetry_false_of_tag htag
    have henh : NetworkManager.enhanceError e domain = e := by
      unfold NetworkManager.enhanceError
      rcases htag with h | h <;> simp [h]
    unfold NetworkManager.executeWithRetry
    rw [h0]
    simp [NetworkManager.runAttempts, hsr, henh]

/-- Witness for C6: a raw HTTP 401 failure with `maxRetries = 2` runs one
attempt, surfaces an `AUTH_ERROR`, and marks no endpoint failed. -/
theorem claim_C6_witness :
    NetworkManager.executeWithRetry "example.com" 2
        (fun _ => (AttemptOutcome.failure
          { message := "Request failed with status code 401", status := some 401 } :
            AttemptOutcome HTTPDNSResponseM))
      = { result := .error (NetworkManager.enhanceError
            { message := "Request failed with status code 401", status := some 401 }
            "example.com")
          attempts := 1
          ipFailMarks := 0 }
    ∧ NetworkManager.enhanceError
        { message := "Request failed with status code 401", status := some 401 } "example.com"
      = createAuthFailedError "example.com" :=
  ⟨(claim_C6_thm "example.com" 2
      { message := "Request failed with status code 401", status := some 401 }
      (fun _ => AttemptOutcome.failure
        { message := "Request failed with status code 401", status := some 401 })).1
      rfl (Or.inl rfl),
   ((claim_C6_thm "example.com" 2
      { message := "Request failed with status code 401", status := some 401 }
      (fun _ => AttemptOutcome.failure
        { message := "Request failed with status code 401", status := some 401 })).2.1
      rfl (Or.inl rfl)).1⟩

/-- Three consecutive retryable failures exhaust `maxRetries = 2`: three
attempts run and the last error, enhanced, is thrown. -/
theorem runAttempts_allFail3 (domain : String) (e0 e1 e2 : JSError)
    (r0 : NetworkManager.shouldRetry e0 = true)
    (r1 : NetworkManager.shouldRetry e1 = true)
    (r2 : NetworkManager.shouldRetry e2 = true) :
    (NetworkManager.runAttempts domain
        (AttemptOutcome.failure e0 : AttemptOutcome HTTPDNSResponseM)
        [AttemptOutcome.failure e1, AttemptOutcome.failure e2]).attempts = 3
    ∧ (NetworkManager.runAttempts domain
        (AttemptOutcome.failure e0 : AttemptOutcome HTTPDNSResponseM)
        [AttemptOutcome.failure e1, AttemptOutcome.failure e2]).result
      = .error (NetworkManager.enhanceError e2 domain) := by
  constructor <;> simp [NetworkManager.runAttempts, r0, r1, r2]

/-- Amended claim C1: a blocking resolve of a valid, uncached domain whose
network attempts all fail with retryable transport errors under
`maxRetries = 2` performs exactly 3 attempts and then returns (does not
throw) the zero-value result — empty ipv4 and ipv6 lists, zero TTLs, cache
untouched.  The underlying error is only logged; it is not attached to the
returned result (`ResolveResult` has no error field — see the
counterexample). -/
theorem claim_C1_thm (enableCache enableExpiredIP : Bool) (cache : CacheStore) (now : Int)
    (domain : String) (err : Nat → JSError) (outcomes : Nat → AttemptOutcome HTTPDNSResponseM)
    (hvalid : isValidDomain domain = true)
    (hmiss : CacheManager.lookup cache domain = none)
    (houtcomes : ∀ i, i < 3 → outcomes i = .failure (err i))
    (hretry : ∀ i, i < 3 → NetworkManager.shouldRetry (err i) = true) :
    Resolver.getHttpDnsResultForHostSync enableCache enableExpiredIP 2 cache now domain none
        outcomes
      = .ok { result := Resolver.failedResolveResult domain now
              backgroundRefresh := none
              cacheAfter := cache
              networkAttempts := 3 } := by
  have hne : ¬(domain = "") := by
    intro h
    rw [h] at hvalid
    exact absurd hvalid (by decide)
  have h0 := houtcomes 0 (by omega)
  have h1 := houtcomes 1 (by omega)
  have h2 := houtcomes 2 (by omega)
  have htr : NetworkManager.executeWithRetry domain 2 outcomes
      = NetworkManager.runAttempts domain
          (AttemptOutcome.failure (err 0) : AttemptOutcome HTTPDNSResponseM)
          [AttemptOutcome.failure (err 1), AttemptOutcome.failure (err 2)] := by
    unfold NetworkManager.executeWithRetry
    have hrange : (List.range 2).map (fun i => outcomes (i + 1))
        = [outcomes 1, outcomes 2] := rfl
    rw [hrange, h0, h1, h2]
  have hfail := runAttempts_allFail3 domain (err 0) (err 1) (err 2)
    (hretry 0 (by omega)) (hretry 1 (by omega)) (hretry 2 (by omega))
  have hhit : (if enableCache then
      CacheManager.get cache now domain (parseQueryType none) enableExpiredIP
    else (none, cache)) = (none, cache) := by
    by_cases hec : enableCache <;> simp [hec, CacheManager.get, hmiss]
  unfold Resolver.getHttpDnsResultForHostSync
  rw [if_neg hne, if_neg (by simp [hvalid])]
  simp only [hhit, htr]
  rcases hres : (NetworkManager.runAttempts domain
      (AttemptOutcome.failure (err 0) : AttemptOutcome HTTPDNSResponseM)
      [AttemptOutcome.failure (err 1), AttemptOutcome.failure (err 2)]).result with e | v
  · simp [hfail.1]
  · rw [hres] at hfail
    exact absurd hfail.2 (by simp)

/-- Witness for C1 (amended): three `ECONNRESET` failures against an empty
cache yield three attempts and the zero-value result. -/
theorem claim_C1_witness :
    Resolver.getHttpDnsResultForHostSync true false 2 [] 0 "example.com" none
        (fun _ => (AttemptOutcome.failure { message := "socket hang up", code := some "ECONNRESET" } :
          AttemptOutcome HTTPDNSResponseM))
      = .ok { result := Resolver.failedResolveResult "example.com" 0
              backgroundRefresh := none
              cacheAfter := []
              networkAttempts := 3 } :=
  claim_C1_thm true false [] 0 "example.com"
    (fun _ => { message := "socket hang up", code := some "ECONNRESET" })
    (fun _ => AttemptOutcome.failure { message := "socket hang up", code := some "ECONNRESET" })
    (by decide) rfl (fun _ _ => rfl) (fun _ _ => rfl)

/-- Counterexample to claim C1 as stated: the failed blocking resolve does
not attach the underlying error to the result.  A persistent timeout
(`ECONNABORTED`) and a persistent connection reset (`ECONNRESET`) produce
byte-identical return values — the fixed zero-value record — so no caller
can inspect `result.error`; indeed the current `ResolveResult` type has no
error field at all. -/
theorem claim_C1_cex :
    Resolver.getHttpDnsResultForHostSync true false 2 [] 0 "example.com" none
        (fun _ => (AttemptOutcome.failure
          { message := "timeout of 5000ms exceeded", code := some "ECONNABORTED" } :
          AttemptOutcome HTTPDNSResponseM))
      = Resolver.getHttpDnsResultForHostSync true false 2 [] 0 "example.com" none
        (fun _ => (AttemptOutcome.failure
          { message := "socket hang up", code := some "ECONNRESET" } :
          AttemptOutcome HTTPDNSResponseM))
    ∧ Resolver.getHttpDnsResultForHostSync true false 2 [] 0 "example.com" none
        (fun _ => (AttemptOutcome.failure
          { message := "timeout of 5000ms exceeded", code := some "ECONNABORTED" } :
          AttemptOutcome HTTPDNSResponseM))
      = .ok { result := Resolver.failedResolveResult "example.com" 0
              backgroundRefresh := none
              cacheAfter := []
              networkAttempts := 3 } := by
  constructor <;> decide

/-- Claim C5: with caching and stale serving enabled, a resolve of a domain
whose cached IPv4 family is fresh but whose IPv6 family is expired returns
the entry's existing IPv4 addresses, TTL and timestamp unchanged, performs
no network attempt, and schedules a background refresh whose query type is
restricted to IPv6 only. -/
theorem claim_C5_thm (cache : CacheStore) (now : Int) (domain : String)
    (maxRetries : Nat) (e : CacheEntry) (outcomes : Nat → AttemptOutcome HTTPDNSResponseM)
    (hvalid : isValidDomain domain = true)
    (hhit : CacheManager.lookup cache domain = some e)
    (h4 : e.isExpired QueryType.IPv4 now = false)
    (h6 : e.isExpired QueryType.IPv6 now = true) :
    Resolver.getHttpDnsResultForHostSync true true maxRetries cache now domain none outcomes
      = .ok { result := e.toResolveResult QueryType.Both
              backgroundRefresh := some QueryType.IPv6
              cacheAfter := cache
              networkAttempts := 0 }
    ∧ (e.toResolveResult QueryType.Both).ipv4 = e.ipv4
    ∧ (e.toResolveResult QueryType.Both).ipv4Ttl = e.ipv4Ttl
    ∧ (e.toResolveResult QueryType.Both).ipv4Timestamp = e.ipv4Timestamp := by
  have hne : ¬(domain = "") := by
    intro h
    rw [h] at hvalid
    exact absurd hvalid (by decide)
  have hboth : e.isExpired QueryType.Both now = true := by
    simp only [CacheEntry.isExpired] at h6 ⊢
    simp [h6]
  have hget : CacheManager.get cache now domain QueryType.Both true = (some e, cache) := by
    simp [CacheManager.get, hhit, hboth]
  have hexp : e.getExpiredTypes now = QueryType.IPv6 := by
    simp only [CacheEntry.getExpiredTypes, CacheEntry.isExpired] at h4 h6 ⊢
    simp [h4, h6]
  refine ⟨?_, rfl, rfl, rfl⟩
  unfold Resolver.getHttpDnsResultForHostSync
  rw [if_neg hne, if_neg (by simp [hvalid])]
  simp only [parseQueryType, Option.getD, if_pos, if_true, hget, hboth, hexp]

/-- Entry used by the C5 witness: IPv4 captured fresh (deadline 600000 ms),
IPv6 long expired (deadline 100000 ms), read at 300000 ms. -/
def staleV6Entry : CacheEntry :=
  { domain := "example.com"
    ipv4 := ["1.2.3.4", "5.6.7.8"]
    ipv4Ttl := 300
    ipv4ExpireTime := 600000
    ipv4Timestamp := 300000
    ipv6 := ["2001:db8::1"]
    ipv6Ttl := 60
    ipv6ExpireTime := 100000
    ipv6Timestamp := 40000 }

/-- Witness for C5 at the concrete partially-stale entry. -/
theorem claim_C5_witness :
    Resolver.getHttpDnsResultForHostSync true true 2
        [("example.com", staleV6Entry)] 300000 "example.com" none
        (fun _ => (AttemptOutcome.failure { message := "unused" } :
          AttemptOutcome HTTPDNSResponseM))
      = .ok { result := staleV6Entry.toResolveResult QueryType.Both
              backgroundRefresh := some QueryType.IPv6
              cacheAfter := [("example.com", staleV6Entry)]
              networkAttempts := 0 }
    ∧ (staleV6Entry.toResolveResult QueryType.Both).ipv4 = staleV6Entry.ipv4 :=
  ⟨(claim_C5_thm [("example.com", staleV6Entry)] 300000 "example.com" 2 staleV6Entry
      (fun _ => AttemptOutcome.failure { message := "unused" })
      (by decide) (by decide) (by decide) (by decide)).1,
   (claim_C5_thm [("example.com", staleV6Entry)] 300000 "example.com" 2 staleV6Entry
      (fun _ => AttemptOutcome.failure { message := "unused" })
      (by decide) (by decide) (by decide) (by decide)).2.1⟩

/-- Amended claim C9: for every syntactically valid domain the non-blocking
lookup never surfaces an error: it returns a cached result or `null`
immediately, and a miss merely schedules a fire-and-forget asynchronous
resolution (whose failure the source only logs).  Syntactically invalid
domains, however, make `validateSingleResolveParams` throw synchronously
(see the counterexample). -/
theorem claim_C9_thm (enableCache enableExpiredIP : Bool) (cache : CacheStore) (now : Int)
    (domain : String) (qt : Option QueryType)
    (hvalid : isValidDomain domain = true) :
    (Resolver.getHttpDnsResultForHostSyncNonBlocking enableCache enableExpiredIP cache now
        domain qt).isOk = true
    ∧ (CacheManager.lookup cache domain = none →
       Resolver.getHttpDnsResultForHostSyncNonBlocking enableCache enableExpiredIP cache now
           domain qt
         = .ok { result := none
                 backgroundRefresh := none
                 missAsyncScheduled := true
                 cacheAfter := cache }) := by
  have hne : ¬(domain = "") := by
    intro h
    rw [h] at hvalid
    exact absurd hvalid (by decide)
  constructor
  · unfold Resolver.getHttpDnsResultForHostSyncNonBlocking
    rw [if_neg hne, if_neg (by simp [hvalid])]
    rcases hh : (if enableCache then
        CacheManager.get cache now domain (parseQueryType qt) enableExpiredIP
      else (none, cache)) with ⟨o, cache'⟩
    simp only [hh]
    cases o <;> simp [Except.isOk, Except.toBool]
  · intro hmiss
    have hhit : (if enableCache then
        CacheManager.get cache now domain (parseQueryType qt) enableExpiredIP
      else (none, cache)) = (none, cache) := by
      by_cases hec : enableCache <;> simp [hec, CacheManager.get, hmiss]
    unfold Resolver.getHttpDnsResultForHostSyncNonBlocking
    rw [if_neg hne, if_neg (by simp [hvalid])]
    simp only [hhit]

/-- Witness for C9 (amended): a valid uncached domain returns `ok` with a
`null` result and a scheduled background resolution. -/
theorem claim_C9_witness :
    Resolver.getHttpDnsResultForHostSyncNonBlocking true false [] 0 "example.com" none
      = .ok { result := none
              backgroundRefresh := none
              missAsyncScheduled := true
              cacheAfter := [] } :=
  (claim_C9_thm true false [] 0 "example.com" none (by decide)).2 rfl

/-- Counterexample to claim C9 as stated: the non-blocking lookup does
surface errors for some input domain strings — the empty string and a
malformed name both throw synchronously from the validation step instead
of returning a cached result or `null`. -/
theorem claim_C9_cex :
    Resolver.getHttpDnsResultForHostSyncNonBlocking true false [] 0 "" none
      = .error "Domain must be a non-empty string"
    ∧ Resolver.getHttpDnsResultForHostSyncNonBlocking true false [] 0 "bad_domain!" none
      = .error "Invalid domain format" := by
  constructor <;> decide

/-- When every bootstrap IP fails (or answers without a usable list), the
discovery loop exhausts the whole list in order. -/
theorem fetchFromIPs_allFail (acc : String) (respond : String → FetchOutcome)
    (ips : List String)
    (h : ∀ ip ∈ ips, (respond (NetworkManager.bootstrapURL acc ip)).usableList = none) :
    NetworkManager.fetchFromIPs acc respond ips
      = (none, ips.map (NetworkManager.bootstrapURL acc)) := by
  induction ips with
  | nil => rfl
  | cons ip rest ih =>
    have h0 := h ip (by simp)
    simp [NetworkManager.fetchFromIPs, h0, ih (fun i hi => h i (by simp [hi]))]

/-- The discovery loop stops at the first bootstrap IP whose response
carries a usable list, leaving later IPs untried. -/
theorem fetchFromIPs_firstGood (acc : String) (respond : String → FetchOutcome)
    (pre : List String) (good : String) (rest : List String) (l : List String)
    (hpre : ∀ ip ∈ pre, (respond (NetworkManager.bootstrapURL acc ip)).usableList = none)
    (hgood : (respond (NetworkManager.bootstrapURL acc good)).usableList = some l) :
    NetworkManager.fetchFromIPs acc respond (pre ++ good :: rest)
      = (some l, pre.map (NetworkManager.bootstrapURL acc)
          ++ [NetworkManager.bootstrapURL acc good]) := by
  induction pre with
  | nil => simp [NetworkManager.fetchFromIPs, hgood]
  | cons ip pre' ih =>
    have h0 := hpre ip (by simp)
    simp [NetworkManager.fetchFromIPs, h0, ih (fun i hi => hpre i (by simp [hi]))]

/-- Amended claim C2: endpoint discovery tries each configured bootstrap
address in list order, always over HTTPS (the source hardcodes
`const protocol = 'https'`, ignoring `enableHTTPS` — see the
counterexample); on the first address whose response carries a non-empty
`service_ip` list it installs that list into the endpoint pool and
returns; if all bootstrap addresses fail it tries the one fallback
bootstrap domain; if that also fails it throws a `NETWORK_ERROR` whose
underlying message is `Service unavailable`. -/
theorem claim_C2_thm (acc : String) (bootstrapIPs pre rest l : List String)
    (good : String) (mgr : ServiceIPManager) (respond : String → FetchOutcome) :
    ((∀ ip ∈ pre, (respond (NetworkManager.bootstrapURL acc ip)).usableList = none) →
       (respond (NetworkManager.bootstrapURL acc good)).usableList = some l →
       NetworkManager.fetchServiceIPs acc (pre ++ good :: rest) mgr respond
         = { result := .ok ()
             mgr := mgr.updateServiceIPs l
             urls := pre.map (NetworkManager.bootstrapURL acc)
               ++ [NetworkManager.bootstrapURL acc good] })
    ∧ ((∀ ip ∈ bootstrapIPs,
          (respond (NetworkManager.bootstrapURL acc ip)).usableList = none) →
       (respond (NetworkManager.bootstrapURL acc DEFAULT_BOOTSTRAP_DOMAIN)).usableList = some l →
       NetworkManager.fetchServiceIPs acc bootstrapIPs mgr respond
         = { result := .ok ()
             mgr := mgr.updateServiceIPs l
             urls := bootstrapIPs.map (NetworkManager.bootstrapURL acc)
               ++ [NetworkManager.bootstrapURL acc DEFAULT_BOOTSTRAP_DOMAIN] })
    ∧ ((∀ ip ∈ bootstrapIPs,
          (respond (NetworkManager.bootstrapURL acc ip)).usableList = none) →
       (respond (NetworkManager.bootstrapURL acc DEFAULT_BOOTSTRAP_DOMAIN)).usableList = none →
       NetworkManager.fetchServiceIPs acc bootstrapIPs mgr respond
         = { result := .error (createNetworkError "" { message := "Service unavailable" })
             mgr := mgr
             urls := bootstrapIPs.map (NetworkManager.bootstrapURL acc)
               ++ [NetworkManager.bootstrapURL acc DEFAULT_BOOTSTRAP_DOMAIN] })
    ∧ (createNetworkError "" { message := "Service unavailable" }).hdnsOp
        = some "NETWORK_ERROR"
    ∧ (createNetworkError "" { message := "Service unavailable" }).message
        = "httpdns NETWORK_ERROR : Service unavailable" := by
  refine ⟨?_, ?_, ?_, by decide, by decide⟩
  · intro hpre hgood
    unfold NetworkManager.fetchServiceIPs
    rw [fetchFromIPs_firstGood acc respond pre good rest l hpre hgood]
  · intro hall hfb
    unfold NetworkManager.fetchServiceIPs
    rw [fetchFromIPs_allFail acc respond bootstrapIPs hall]
    simp [hfb]
  · intro hall hfb
    unfold NetworkManager.fetchServiceIPs
    rw [fetchFromIPs_allFail acc respond bootstrapIPs hall]
    simp [hfb]

/-- Witness for C2 (amended): with the first bootstrap IP unreachable and
the second answering `{ service_ip: ['203.0.113.10'] }`, discovery stops at
the second IP and installs the list. -/
theorem claim_C2_witness :
    NetworkManager.fetchServiceIPs "1000000" ["203.107.1.1", "203.107.1.97"]
        ServiceIPManager.empty
        (fun url =>
          if url = "https://203.107.1.97/1000000/ss?region=global" then
            FetchOutcome.success (some ["203.0.113.10"])
          else FetchOutcome.failure)
      = { result := .ok ()
          mgr := ServiceIPManager.empty.updateServiceIPs ["203.0.113.10"]
          urls := ["https://203.107.1.1/1000000/ss?region=global",
                   "https://203.107.1.97/1000000/ss?region=global"] } := by
  have h := (claim_C2_thm "1000000" [] ["203.107.1.1"] [] ["203.0.113.10"] "203.107.1.97"
    ServiceIPManager.empty
    (fun url =>
      if url = "https://203.107.1.97/1000000/ss?region=global" then
        FetchOutcome.success (some ["203.0.113.10"])
      else FetchOutcome.failure)).1
    (by intro ip hip; simp only [List.mem_singleton] at hip; subst hip; decide)
    (by decide)
  simpa using h

/-- Counterexample to claim C2 as stated: the claim says discovery runs
over HTTP when `enableHTTPS` is unset, but the source hardcodes the
`https` scheme — the URLs actually requested (bootstrap IP, then fallback
domain) are `https://...` and differ from the spec-modelled HTTP URL. -/
theorem claim_C2_cex :
    (NetworkManager.fetchServiceIPs "1000000" ["203.107.1.1"] ServiceIPManager.empty
        (fun _ => FetchOutcome.failure)).urls
      = ["https://203.107.1.1/1000000/ss?region=global",
         "https://resolvers-cn.httpdns.aliyuncs.com/1000000/ss?region=global"]
    ∧ specBootstrapURL false "1000000" "203.107.1.1"
      = "http://203.107.1.1/1000000/ss?region=global"
    ∧ ¬ (NetworkManager.bootstrapURL "1000000" "203.107.1.1"
          = specBootstrapURL false "1000000" "203.107.1.1") := by
  refine ⟨by decide, by decide, by decide⟩

/-- Counterexample to claim C6 as stated: a failure tagged as a
configuration error is indeed not retried (1 attempt, no endpoint marking),
but the surfaced error is the unchanged `CONFIG_ERROR`, not an Auth-kind
error. -/
theorem claim_C6_cex :
    NetworkManager.executeWithRetry "example.com" 2
        (fun _ => (AttemptOutcome.failure
          { message := "httpdns CONFIG_ERROR : accountId must be a non-empty string"
            hdnsOp := some "CONFIG_ERROR" } : AttemptOutcome HTTPDNSResponseM))
      = { result := .error
            { message := "httpdns CONFIG_ERROR : accountId must be a non-empty string"
              hdnsOp := some "CONFIG_ERROR" }
          attempts := 1
          ipFailMarks := 0 }
    ∧ ¬ ((NetworkManager.enhanceError
          { message := "httpdns CONFIG_ERROR : accountId must be a non-empty string"
            hdnsOp := some "CONFIG_ERROR" } "example.com").hdnsOp = some "AUTH_ERROR") := by
  refine ⟨by decide, by decide⟩
